import Mathlib

/-!
Shallow embedding of the MendixWidget-DocumentScanner repository
(`src/sdk/DocumentScanner.ts`, `src/views/DocumentScannerView.ts`,
`src/views/DocumentCorrectionView.ts`, `src/views/DocumentResultView.ts`,
`src/views/utils/index.ts`, `src/views/utils/types.ts`).

DOM manipulation, camera hardware, and the proprietary Dynamsoft vision
engine are outside the embedding; the functions below model the
repository's own branching and state logic, with the outcome of each
external call passed in as data (an `Except` value for fallible calls).
JavaScript numbers that only ever hold integers are modelled as `Nat`/`Int`,
JavaScript strings as `String` (or `List Char` where character-level
operations matter), and `undefined`/optional values as `Option`.
-/

set_option maxHeartbeats 1000000

namespace DocScanner

/-! ## Data model (`src/views/utils/types.ts`) -/

/-- `EnumResultStatus` from `types.ts`. -/
inductive EnumResultStatus
  | RS_SUCCESS
  | RS_CANCELLED
  | RS_FAILED
deriving DecidableEq, Repr

/-- `ResultStatus` from `types.ts`: a status code with an optional message. -/
structure ResultStatus where
  code : EnumResultStatus
  message : Option String
deriving DecidableEq, Repr

/-- `EnumFlowType` from `types.ts`. -/
inductive EnumFlowType
  | MANUAL
  | SMART_CAPTURE
  | AUTO_CROP
  | UPLOADED_IMAGE
  | STATIC_FILE
deriving DecidableEq, Repr

/-- A 2-D point of a detected quadrilateral. -/
structure Point where
  x : Int
  y : Int
deriving DecidableEq, Repr

/-- `Quadrilateral`: corner points plus an area, as used by the views. -/
structure Quadrilateral where
  points : List Point
  area : Int
deriving DecidableEq, Repr

/-- `DocumentResult` from `types.ts`.  Image handles are opaque: we model
them as numeric identifiers. -/
structure DocumentResult where
  status : ResultStatus
  correctedImageResult : Option Nat := none
  originalImageResult : Option Nat := none
  detectedQuadrilateral : Option Quadrilateral := none
  flowType : Option EnumFlowType := none
deriving DecidableEq, Repr

/-- A failed `DocumentResult` carrying only a status, as built inline by the
various `catch` blocks. -/
def failedResult (msg : String) : DocumentResult :=
  { status := { code := .RS_FAILED, message := some msg } }

/-! ## `shouldCorrectImage` and capture routing
(`src/views/utils/index.ts` lines 146-148, `src/sdk/DocumentScanner.ts`
lines 786-802) -/

/-- `shouldCorrectImage` from `src/views/utils/index.ts`:
`[SMART_CAPTURE, UPLOADED_IMAGE, MANUAL].includes(flow)`. -/
def shouldCorrectImage (flow : EnumFlowType) : Bool :=
  decide (flow ∈ [EnumFlowType.SMART_CAPTURE, EnumFlowType.UPLOADED_IMAGE, EnumFlowType.MANUAL])

/-- The routing decision inside `DocumentScanner.launch` after a successful
scanner-view capture: the correction view is launched automatically exactly
when both the correction view and the result view are present and the
result's `_flowType` is set and satisfies `shouldCorrectImage`
(`if (components.correctionView && components.scanResultView) { if
(scanResult._flowType && shouldCorrectImage(scanResult._flowType)) ... }`). -/
def correctionLaunchedAfterCapture (hasCorrectionView hasResultView : Bool)
    (flowType : Option EnumFlowType) : Bool :=
  hasCorrectionView && hasResultView &&
    (match flowType with
     | some f => shouldCorrectImage f
     | none => false)

/-! ## Auto-capture threshold (`DocumentScannerView` lines 23, 295-306) -/

/-- `DEFAULT_MIN_VERIFIED_FRAMES_FOR_CAPTURE` from `DocumentScannerView.ts`. -/
def DEFAULT_MIN_VERIFIED_FRAMES_FOR_CAPTURE : Int := 2

/-- `DocumentScannerView.getMinVerifiedFramesForAutoCapture`: returns the
default when the configured value is falsy (absent or `0`), `<= 0`, or
`> 5`, and the configured value otherwise. -/
def getMinVerifiedFramesForAutoCapture (cfgMin : Option Int) : Int :=
  match cfgMin with
  | none => DEFAULT_MIN_VERIFIED_FRAMES_FOR_CAPTURE
  | some n =>
    if n = 0 || n ≤ 0 || 5 < n then DEFAULT_MIN_VERIFIED_FRAMES_FOR_CAPTURE
    else n

/-! ## Cross-verification counter and auto capture
(`DocumentScannerView.handleBoundsDetection` lines 1456-1471,
`DocumentScannerView.handleAutoCaptureMode` lines 1478-1503) -/

/-- The data of one captured frame that the counter logic inspects: the
number of captured result items (the result always includes the original
image when a boundary is found, so a detected boundary means at least two
items), and whether the first detected-quad result item carries
`crossVerificationStatus === 1`. -/
structure Frame where
  numItems : Nat
  verifiedQuad : Bool
deriving DecidableEq, Repr

/-- `DocumentScannerView.handleAutoCaptureMode` acting on the
`crossVerificationCount` counter.  Returns the new counter value and
whether `takePhoto` was invoked.  The threshold is
`config?.minVerifiedFramesForAutoCapture ?? DEFAULT_MIN_VERIFIED_FRAMES_FOR_CAPTURE`. -/
def handleAutoCaptureMode (cfgMin : Option Nat) (count : Nat) (f : Frame) :
    Nat × Bool :=
  if f.numItems ≤ 1 then (0, false)
  else
    let count1 := if f.verifiedQuad then count + 1 else count
    if cfgMin.getD 2 ≤ count1 then (0, true) else (count1, false)

/-- `DocumentScannerView.handleBoundsDetection` acting on the counter: it
returns early when the frame has no items at all, and only runs
`handleAutoCaptureMode` when smart capture or auto crop is enabled. -/
def handleBoundsDetection (smartCaptureEnabled autoCropEnabled : Bool)
    (cfgMin : Option Nat) (count : Nat) (f : Frame) : Nat × Bool :=
  if f.numItems = 0 then (count, false)
  else if smartCaptureEnabled || autoCropEnabled then
    handleAutoCaptureMode cfgMin count f
  else (count, false)

/-! ## Full-image quadrilateral fallback
(`DocumentScannerView.takePhoto` lines 1361-1392,
`DocumentScannerView.uploadImage` lines 885-906,
`DocumentScanner.processUploadedFile` lines 639-660) -/

/-- The full-image quadrilateral built identically at the three fallback
sites: corners `(0,0), (w,0), (w,h), (0,h)` with `area: height * width`. -/
def fullImageQuad (width height : Int) : Quadrilateral :=
  { points := [⟨0, 0⟩, ⟨width, 0⟩, ⟨width, height⟩, ⟨0, height⟩]
    area := height * width }

/-- Quadrilateral selection in `DocumentScannerView.takePhoto`:
`shouldUseLatestFrame = !boundsDetectionEnabled || (boundsDetectionEnabled
&& capturedResultItems.length <= 1)`; in that case the full-image
quadrilateral is used, otherwise the detected quad item's location. -/
def takePhotoQuad (boundsDetectionEnabled : Bool) (numItems : Nat)
    (width height : Int) (detectedQuad : Option Quadrilateral) :
    Option Quadrilateral :=
  let shouldUseLatestFrame :=
    !boundsDetectionEnabled || (boundsDetectionEnabled && decide (numItems ≤ 1))
  if shouldUseLatestFrame then some (fullImageQuad width height)
  else detectedQuad

/-- Quadrilateral selection in `DocumentScannerView.uploadImage`:
`useImageDimensions = capturedResultItems.length <= 1`. -/
def uploadImageQuad (numItems : Nat) (width height : Int)
    (detectedQuad : Option Quadrilateral) : Option Quadrilateral :=
  if numItems ≤ 1 then some (fullImageQuad width height)
  else detectedQuad

/-- Quadrilateral selection in `DocumentScanner.processUploadedFile`:
`resultItems.length <= 1` means no boundaries were detected and the full
image is used. -/
def processUploadedFileQuad (numItems : Nat) (width height : Int)
    (detectedQuad : Option Quadrilateral) : Option Quadrilateral :=
  if numItems ≤ 1 then some (fullImageQuad width height)
  else detectedQuad

/-! ## License substitution (`DocumentScanner.checkForTemporaryLicense`
lines 358-366, `DocumentScanner.initializeDDSConfig` lines 445-452,
`DocumentScanner.initializeDCVResources` line 315).
Licenses are modelled as `List Char` so that the single-character
`startsWith` checks are explicit. -/

/-- The built-in trial license constant returned by
`checkForTemporaryLicense`. -/
def TRIAL_LICENSE : List Char :=
  "DLS2eyJvcmdhbml6YXRpb25JRCI6IjIwMDAwMSJ9".data

/-- `license.startsWith(c)` for a one-character prefix. -/
def startsWithChar (s : List Char) (c : Char) : Bool :=
  s.head? = some c

/-- `DocumentScanner.checkForTemporaryLicense`: substitutes the trial
license when the license is absent, has length zero, or starts with
`'A'`, `'L'`, `'P'`, or `'Y'`; otherwise returns the license unchanged. -/
def checkForTemporaryLicense (license : Option (List Char)) : List Char :=
  match license with
  | none => TRIAL_LICENSE
  | some l =>
    if l.isEmpty || startsWithChar l 'A' || startsWithChar l 'L' ||
        startsWithChar l 'P' || startsWithChar l 'Y' then
      TRIAL_LICENSE
    else l

/-- The license written into the config by `initializeDDSConfig`
(`license: this.checkForTemporaryLicense(this.config.license)`). -/
def initializeDDSConfigLicense (license : Option (List Char)) : List Char :=
  checkForTemporaryLicense license

/-- The argument passed to `LicenseManager.initLicense` by
`initializeDCVResources` (`this.config?.license || ""`), which runs after
`initializeDDSConfig` has replaced the configured license. -/
def initLicenseArgument (license : Option (List Char)) : List Char :=
  let cfg := initializeDDSConfigLicense license
  if cfg.isEmpty then [] else cfg

/-! ## Per-view error handling
(`DocumentScannerView.launch` lines 1534-1546,
`DocumentCorrectionView.launch` lines 641-677,
`DocumentResultView.launch` lines 90-117,
`DocumentScanner.launch` lines 732-825).
Each launch body is a sequence of awaits on external resources; its outcome
is passed in as an `Except String DocumentResult` (`Except.error e` when
some step threw an exception with message `e`). -/

/-- `DocumentScannerView.launch`: on any exception the `catch` block builds
a result with `RS_FAILED` and the message `"DDS Launch error"` and returns
it (after resolving any pending scan promise with it). -/
def scannerViewLaunch (flowOutcome : Except String DocumentResult) :
    DocumentResult :=
  match flowOutcome with
  | .ok r => r
  | .error _ => failedResult "DDS Launch error"

/-- `DocumentCorrectionView.launch`: returns a failure immediately when no
corrected image exists yet, and otherwise converts any exception into a
result with `RS_FAILED` carrying the exception's message. -/
def correctionViewLaunch (hasCorrectedImage : Bool)
    (flowOutcome : Except String DocumentResult) : DocumentResult :=
  if hasCorrectedImage = false then
    failedResult "No image available for correction"
  else
    match flowOutcome with
    | .ok r => r
    | .error e => failedResult e

/-- `DocumentResultView.launch`: converts any exception into a result with
`RS_FAILED` carrying the exception's message. -/
def resultViewLaunch (flowOutcome : Except String DocumentResult) :
    DocumentResult :=
  match flowOutcome with
  | .ok r => r
  | .error e => failedResult e

/-- `DocumentScanner.launch`: throws `"Capture session already in
progress"` when re-entered while capturing (this guard sits before the
`try`), and otherwise catches every exception of the flow and returns
`RS_FAILED` with `"Document capture flow failed. "` plus the error text. -/
def documentScannerLaunch (isCapturing : Bool)
    (flowOutcome : Except String DocumentResult) :
    Except String DocumentResult :=
  if isCapturing then .error "Capture session already in progress"
  else
    .ok (match flowOutcome with
      | .ok r => r
      | .error e => failedResult ("Document capture flow failed. " ++ e))

/-! ## Result-view Done handler (`DocumentResultView.handleDone` lines
277-304, `DocumentResultView.launch` lines 90-117).
`DocumentResultView.launch` stores a one-shot resolver
(`currentScanResultViewResolver`); `handleDone` awaits the configured
`onDone` callback and then fulfills the pending promise through that
resolver.  We record the observable actions as an event trace. -/

/-- Observable actions of `handleDone`: invoking the configured `onDone`
callback with a result, and fulfilling the pending launch promise with a
result. -/
inductive DoneEvent
  | calledOnDone (r : DocumentResult)
  | resolved (r : DocumentResult)
deriving DecidableEq, Repr

/-- `DocumentResultView.handleDone`: when an `onDone` callback is
configured and a shared result exists, the callback is awaited first
(`onDoneOutcome` is its termination behaviour; `none` means no callback is
configured); then, when a resolver and a shared result exist, the promise
is fulfilled with the shared result.  If the callback throws, the `catch`
block fulfills the promise with an `RS_FAILED` result carrying the error
message instead. -/
def handleDone (onDoneOutcome : Option (Except String Unit))
    (hasResolver : Bool) (sharedResult : Option DocumentResult) :
    List DoneEvent :=
  match sharedResult, onDoneOutcome with
  | some r, some (.error e) =>
    [DoneEvent.calledOnDone r] ++
      (if hasResolver then [DoneEvent.resolved (failedResult e)] else [])
  | some r, some (.ok _) =>
    [DoneEvent.calledOnDone r] ++
      (if hasResolver then [DoneEvent.resolved r] else [])
  | some r, none => if hasResolver then [DoneEvent.resolved r] else []
  | none, _ => []

/-! ## Scanner teardown (`DocumentScanner.dispose` lines 528-578) -/

/-- The shared-resources container (`SharedResources` in
`DocumentScanner.ts`).  The camera enhancer, camera view, and
capture-vision router are opaque objects modelled as numeric handles;
`hasOnResultUpdated` records whether the `onResultUpdated` callback is
set. -/
structure SharedResources where
  cvRouter : Option Nat := none
  cameraEnhancer : Option Nat := none
  cameraView : Option Nat := none
  result : Option DocumentResult := none
  hasOnResultUpdated : Bool := false
deriving DecidableEq, Repr

/-- The private state of a `DocumentScanner` instance relevant to
`dispose`. -/
structure DocumentScannerState where
  hasScannerView : Bool := false
  hasCorrectionView : Bool := false
  hasScanResultView : Bool := false
  resources : SharedResources := {}
  isInitialized : Bool := false
deriving DecidableEq, Repr

/-- External `dispose()` calls made by `DocumentScanner.dispose`, in
order. -/
inductive DisposeCall
  | scanResultView
  | correctionView
  | cameraEnhancer (handle : Nat)
  | cameraView (handle : Nat)
  | cvRouter (handle : Nat)
deriving DecidableEq, Repr

/-- `DocumentScanner.dispose`: disposes the result view, the correction
view, and each present DCV resource, clears every reference (including the
shared `result` and `onResultUpdated`), and marks the scanner
uninitialized.  Returns the new state together with the list of external
`dispose()` calls made. -/
def dispose (s : DocumentScannerState) :
    DocumentScannerState × List DisposeCall :=
  let calls :=
    (if s.hasScanResultView then [DisposeCall.scanResultView] else []) ++
    (if s.hasCorrectionView then [DisposeCall.correctionView] else []) ++
    (match s.resources.cameraEnhancer with
     | some h => [DisposeCall.cameraEnhancer h]
     | none => []) ++
    (match s.resources.cameraView with
     | some h => [DisposeCall.cameraView h]
     | none => []) ++
    (match s.resources.cvRouter with
     | some h => [DisposeCall.cvRouter h]
     | none => [])
  ({ hasScannerView := false
     hasCorrectionView := false
     hasScanResultView := false
     resources :=
       { cvRouter := none
         cameraEnhancer := none
         cameraView := none
         result := none
         hasOnResultUpdated := false }
     isInitialized := false },
   calls)

/-! ## Scanner mode toggles
(`DocumentScannerView.toggleBoundsDetection` lines 995-1040,
`DocumentScannerView.toggleSmartCapture` lines 1042-1080,
`DocumentScannerView.toggleAutoCrop` lines 1082-1119,
`DocumentScannerView.initialize` lines 316-321).
The DOM queries of each toggle are assumed to succeed (their early returns
fire only when the widget's UI is missing) and the camera-router resources
are assumed present; what is modelled is the mode-flag logic.  The three
toggles call each other with fixed arguments to bounded depth; the mutual
recursion is embedded with a fuel parameter, and fuel 5 exceeds the
deepest call chain (depth 3). -/

/-- The piece of `DocumentScannerViewConfig` the toggles read:
`_showCorrectionView` (`none` when unset). -/
structure ModeConfig where
  showCorrectionView : Option Bool
deriving DecidableEq, Repr, Fintype

/-- The three mode flags of `DocumentScannerView`. -/
structure ModeState where
  boundsDetectionEnabled : Bool
  smartCaptureEnabled : Bool
  autoCropEnabled : Bool
deriving DecidableEq, Repr, Fintype

mutual

/-- `DocumentScannerView.toggleBoundsDetection` (fueled): computes the new
state from the optional argument, first turns smart capture off when
disabling, then records the new flag. -/
def toggleBoundsDetectionF : Nat → ModeConfig → Option Bool → ModeState → ModeState
  | 0, _, _, s => s
  | fuel + 1, cfg, enabled, s =>
    let newBoundsDetectionState := enabled.getD (!s.boundsDetectionEnabled)
    let s1 := if !newBoundsDetectionState then
        toggleSmartCaptureF fuel cfg (some false) s
      else s
    { s1 with boundsDetectionEnabled := newBoundsDetectionState }

/-- `DocumentScannerView.toggleSmartCapture` (fueled): when turning on with
bounds detection off, turns bounds detection on first; when turning off
with `_showCorrectionView !== false`, turns auto crop off; then records
the new flag (and resets `crossVerificationCount`, modelled separately). -/
def toggleSmartCaptureF : Nat → ModeConfig → Option Bool → ModeState → ModeState
  | 0, _, _, s => s
  | fuel + 1, cfg, mode, s =>
    let newSmartCaptureState := mode.getD (!s.smartCaptureEnabled)
    let s1 :=
      if newSmartCaptureState && !s.boundsDetectionEnabled then
        toggleBoundsDetectionF fuel cfg (some true) s
      else if !newSmartCaptureState && decide (cfg.showCorrectionView ≠ some false) then
        toggleAutoCropF fuel cfg (some false) s
      else s
    { s1 with smartCaptureEnabled := newSmartCaptureState }

/-- `DocumentScannerView.toggleAutoCrop` (fueled): when turning on with
bounds detection or smart capture off, turns bounds detection on and then
smart capture on; when turning off with `_showCorrectionView === false`,
also turns smart capture off; then records the new flag. -/
def toggleAutoCropF : Nat → ModeConfig → Option Bool → ModeState → ModeState
  | 0, _, _, s => s
  | fuel + 1, cfg, mode, s =>
    let newAutoCropState := mode.getD (!s.autoCropEnabled)
    let s1 :=
      if newAutoCropState && (!s.boundsDetectionEnabled || !s.smartCaptureEnabled) then
        toggleSmartCaptureF fuel cfg (some true)
          (toggleBoundsDetectionF fuel cfg (some true) s)
      else s
    let s2 :=
      if !newAutoCropState && decide (cfg.showCorrectionView = some false) then
        toggleSmartCaptureF fuel cfg (some false) s1
      else s1
    { s2 with autoCropEnabled := newAutoCropState }

end

/-- Fuel bound exceeding the deepest toggle call chain. -/
def toggleFuel : Nat := 5

/-- `toggleBoundsDetection` at full fuel. -/
def toggleBoundsDetection (cfg : ModeConfig) (enabled : Option Bool)
    (s : ModeState) : ModeState :=
  toggleBoundsDetectionF toggleFuel cfg enabled s

/-- `toggleSmartCapture` at full fuel. -/
def toggleSmartCapture (cfg : ModeConfig) (mode : Option Bool)
    (s : ModeState) : ModeState :=
  toggleSmartCaptureF toggleFuel cfg mode s

/-- `toggleAutoCrop` at full fuel. -/
def toggleAutoCrop (cfg : ModeConfig) (mode : Option Bool)
    (s : ModeState) : ModeState :=
  toggleAutoCropF toggleFuel cfg mode s

/-- The mode flags set by `DocumentScannerView.initialize`:
`autoCropEnabled = config?.enableAutoCropMode ?? false`,
`smartCaptureEnabled = (config?.enableSmartCaptureMode ||
config?.enableAutoCropMode) ?? false`, and `boundsDetectionEnabled` keeps
its field initializer `true`. -/
def initialModeState (enableSmartCaptureMode enableAutoCropMode : Option Bool) :
    ModeState :=
  { boundsDetectionEnabled := true
    smartCaptureEnabled :=
      enableSmartCaptureMode.getD false || enableAutoCropMode.getD false
    autoCropEnabled := enableAutoCropMode.getD false }

/-- One invocation of a toggle, with its optional boolean argument. -/
inductive ToggleOp
  | boundsDetection (mode : Option Bool)
  | smartCapture (mode : Option Bool)
  | autoCrop (mode : Option Bool)
deriving DecidableEq, Repr, Fintype

/-- Apply one toggle invocation to the mode state. -/
def applyToggle (cfg : ModeConfig) : ToggleOp → ModeState → ModeState
  | .boundsDetection m, s => toggleBoundsDetection cfg m s
  | .smartCapture m, s => toggleSmartCapture cfg m s
  | .autoCrop m, s => toggleAutoCrop cfg m s

/-- Mode states reachable from an initial mode state via the three toggle
operations. -/
inductive ReachableMode (cfg : ModeConfig) : ModeState → Prop
  | init (enableSmartCaptureMode enableAutoCropMode : Option Bool) :
      ReachableMode cfg (initialModeState enableSmartCaptureMode enableAutoCropMode)
  | step (op : ToggleOp) {s : ModeState} :
      ReachableMode cfg s → ReachableMode cfg (applyToggle cfg op s)

/-- The claimed mode invariant: auto crop implies smart capture, and smart
capture implies bounds detection. -/
def modeInvariant (s : ModeState) : Prop :=
  (s.autoCropEnabled = true → s.smartCaptureEnabled = true) ∧
  (s.smartCaptureEnabled = true → s.boundsDetectionEnabled = true)

instance (s : ModeState) : Decidable (modeInvariant s) := by
  unfold modeInvariant
  infer_instance

/-! ## Closest resolution level (`findClosestResolutionLevel`,
`src/views/utils/index.ts` lines 168-207).  The floating-point arithmetic
of the score is modelled over `ℚ`; on the inputs the claim quantifies
over, every comparison has the same outcome as in IEEE doubles (a zero
score is exactly zero in both, and the remaining scores are positive with
wide margins). -/

/-- The keys of `STANDARD_RESOLUTIONS`. -/
inductive ResolutionLevel
  | r4k
  | r2k
  | r1080p
  | r720p
  | r480p
deriving DecidableEq, Repr, Fintype

/-- `STANDARD_RESOLUTIONS` from `src/views/utils/index.ts`. -/
def STANDARD_RESOLUTIONS : ResolutionLevel → Nat × Nat
  | .r4k => (3840, 2160)
  | .r2k => (2560, 1440)
  | .r1080p => (1920, 1080)
  | .r720p => (1280, 720)
  | .r480p => (640, 480)

/-- The iteration order of `Object.entries(STANDARD_RESOLUTIONS)`:
insertion order of the literal. -/
def resolutionLevels : List ResolutionLevel :=
  [.r4k, .r2k, .r1080p, .r720p, .r480p]

/-- The weighted difference score computed inside the loop of
`findClosestResolutionLevel`:
`pixelDifference * 0.7 + aspectRatioDifference * standardPixels * 0.3`. -/
def resolutionScore (inputWidth inputHeight : Nat) (level : ResolutionLevel) : ℚ :=
  let inputPixels : ℚ := (inputWidth : ℚ) * (inputHeight : ℚ)
  let inputAspectRatio : ℚ := (inputWidth : ℚ) / (inputHeight : ℚ)
  let std := STANDARD_RESOLUTIONS level
  let standardPixels : ℚ := (std.1 : ℚ) * (std.2 : ℚ)
  let standardAspectRatio : ℚ := (std.1 : ℚ) / (std.2 : ℚ)
  |standardPixels - inputPixels| * (7 / 10) +
    |standardAspectRatio - inputAspectRatio| * standardPixels * (3 / 10)

/-- `findClosestResolutionLevel`: starts from `closestLevel = "480p"` with
`smallestDifference = Number.MAX_VALUE` (modelled as `none`, larger than
every attainable score) and keeps the first level whose score is strictly
smaller than the best so far. -/
def findClosestResolutionLevel (w h : Nat) : ResolutionLevel :=
  (resolutionLevels.foldl
    (fun (acc : ResolutionLevel × Option ℚ) level =>
      let totalDifference := resolutionScore w h level
      match acc.2 with
      | none => (level, some totalDifference)
      | some smallest =>
        if totalDifference < smallest then (level, some totalDifference)
        else acc)
    (ResolutionLevel.r480p, none)).1

end DocScanner

namespace DocScanner

/-! ## Theorems -/

/-- Claim C2: the effective auto-capture threshold equals the configured
`minVerifiedFramesForAutoCapture` when that value is between 1 and 5
inclusive, and equals the default 2 when the value is unset, zero or
negative, or greater than 5. -/
theorem C2_threshold_range : ∀ cfgMin : Option Int,
    getMinVerifiedFramesForAutoCapture cfgMin =
      match cfgMin with
      | some n => if 1 ≤ n ∧ n ≤ 5 then n else 2
      | none => 2 := by
  intro cfgMin
  cases cfgMin with
  | none => rfl
  | some n =>
    simp only [getMinVerifiedFramesForAutoCapture,
      DEFAULT_MIN_VERIFIED_FRAMES_FOR_CAPTURE, Bool.or_eq_true, decide_eq_true_eq]
    split <;> split <;> omega

/-- Claim C4: with both the correction view and the result view configured,
the correction screen is launched automatically exactly when the captured
result's flow-type tag is one of manual, smart-capture, or uploaded-image;
`shouldCorrectImage` returns `true` for exactly these three of the five
flow types and `false` for auto-crop and static-file. -/
theorem C4_correction_routing : ∀ (f : EnumFlowType) (flow : Option EnumFlowType),
    (shouldCorrectImage f = true ↔
      (f = .MANUAL ∨ f = .SMART_CAPTURE ∨ f = .UPLOADED_IMAGE)) ∧
    shouldCorrectImage .AUTO_CROP = false ∧
    shouldCorrectImage .STATIC_FILE = false ∧
    (correctionLaunchedAfterCapture true true flow = true ↔
      ∃ g, flow = some g ∧
        (g = .MANUAL ∨ g = .SMART_CAPTURE ∨ g = .UPLOADED_IMAGE)) ∧
    (∀ hc hr : Bool, correctionLaunchedAfterCapture hc hr flow = true →
      hc = true ∧ hr = true) := by
  intro f flow
  refine ⟨by cases f <;> simp [shouldCorrectImage], by decide, by decide, ?_, ?_⟩
  · cases flow with
    | none => simp [correctionLaunchedAfterCapture]
    | some g =>
      cases g <;> simp [correctionLaunchedAfterCapture, shouldCorrectImage]
  · intro hc hr h
    cases hc <;> cases hr <;> simp_all [correctionLaunchedAfterCapture]

/-- Witness for C4 at the manual flow type: correction is launched, and the
launch decision at a concrete input implies both views were present. -/
theorem C4_correction_routing_witness :
    shouldCorrectImage .MANUAL = true ∧
    correctionLaunchedAfterCapture true true (some .MANUAL) = true ∧
    (true = true ∧ true = true) :=
  ⟨(C4_correction_routing .MANUAL (some .MANUAL)).1.mpr (Or.inl rfl),
   (C4_correction_routing .MANUAL (some .MANUAL)).2.2.2.1.mpr
     ⟨.MANUAL, rfl, Or.inl rfl⟩,
   (C4_correction_routing .MANUAL (some .MANUAL)).2.2.2.2 true true rfl⟩

/-- Claim C9: whenever detection yields at most one result item (no
document boundary), `takePhoto`, `uploadImage`, and `processUploadedFile`
all fall back to the full-image quadrilateral with corners
`(0,0), (w,0), (w,h), (0,h)` and area `w * h`. -/
theorem C9_full_image_fallback :
    ∀ (b : Bool) (n : Nat) (w h : Int) (q : Option Quadrilateral),
    n ≤ 1 →
    takePhotoQuad b n w h q = some (fullImageQuad w h) ∧
    uploadImageQuad n w h q = some (fullImageQuad w h) ∧
    processUploadedFileQuad n w h q = some (fullImageQuad w h) ∧
    (fullImageQuad w h).points = [⟨0, 0⟩, ⟨w, 0⟩, ⟨w, h⟩, ⟨0, h⟩] ∧
    (fullImageQuad w h).area = w * h := by
  intro b n w h q hn
  refine ⟨?_, ?_, ?_, rfl, Int.mul_comm h w⟩
  · cases b <;> simp [takePhotoQuad, hn]
  · simp [uploadImageQuad, hn]
  · simp [processUploadedFileQuad, hn]

/-- Witness for C9 at a concrete input: one result item, a 640×480 image. -/
theorem C9_full_image_fallback_witness :
    (1 : Nat) ≤ 1 ∧
    (takePhotoQuad true 1 640 480 none = some (fullImageQuad 640 480) ∧
     uploadImageQuad 1 640 480 none = some (fullImageQuad 640 480) ∧
     processUploadedFileQuad 1 640 480 none = some (fullImageQuad 640 480) ∧
     (fullImageQuad 640 480).points = [⟨0, 0⟩, ⟨640, 0⟩, ⟨640, 480⟩, ⟨0, 480⟩] ∧
     (fullImageQuad 640 480).area = 640 * 480) :=
  ⟨by decide, C9_full_image_fallback true 1 640 480 none (by decide)⟩

/-- Claim C8: `checkForTemporaryLicense` returns the built-in trial license
exactly for an absent or empty license or one starting with `'A'`, `'L'`,
`'P'`, or `'Y'`, returns every other license unchanged, and this
substituted value is the license passed to `LicenseManager.initLicense`
during initialization. -/
theorem C8_trial_license : ∀ l : List Char,
    checkForTemporaryLicense none = TRIAL_LICENSE ∧
    checkForTemporaryLicense (some l) =
      (if l = [] ∨ l.head? ∈ [some 'A', some 'L', some 'P', some 'Y'] then
        TRIAL_LICENSE
      else l) ∧
    initLicenseArgument (some l) = checkForTemporaryLicense (some l) ∧
    initLicenseArgument none = checkForTemporaryLicense none := by
  intro l
  have htrial : TRIAL_LICENSE.isEmpty = false := by decide
  refine ⟨rfl, ?_, ?_, ?_⟩
  · simp only [checkForTemporaryLicense, startsWithChar, List.isEmpty_iff,
      Bool.or_eq_true, decide_eq_true_eq, List.mem_cons, List.mem_singleton,
      List.not_mem_nil, or_false]
    split <;> split <;> simp_all
  · simp only [initLicenseArgument, initializeDDSConfigLicense,
      checkForTemporaryLicense]
    split
    · simp [htrial]
    · next h =>
      have hne : l.isEmpty = false := by
        simp only [Bool.or_eq_true, not_or, Bool.not_eq_true] at h
        exact h.1.1.1.1
      simp [hne]
  · simp [initLicenseArgument, initializeDDSConfigLicense,
      checkForTemporaryLicense, htrial]

/-- Claim C1 (counterexample): the claim states that the counter "is reset
to zero on frames with no detected boundary (at most one result item)",
but `handleBoundsDetection` returns before reaching the reset in
`handleAutoCaptureMode` whenever the frame has no items at all.  Concretely
in smart-capture mode with threshold 2: a verified two-item frame raises
the counter from 0 to 1, and a subsequent zero-item frame (which has at
most one result item) leaves the counter at 1 instead of resetting it. -/
theorem C1_counterexample :
    (handleBoundsDetection true false (some 2) 0 ⟨2, true⟩).1 = 1 ∧
    (⟨0, false⟩ : Frame).numItems ≤ 1 ∧
    (handleBoundsDetection true false (some 2) 1 ⟨0, false⟩).1 = 1 ∧
    (handleBoundsDetection true false (some 2) 1 ⟨0, false⟩).1 ≠ 0 := by
  refine ⟨rfl, by decide, rfl, by decide⟩

/-- Claim C1 as amended: in smart-capture or auto-crop mode, an automatic
capture (`takePhoto`) fires exactly when the cross-verification counter
(incremented on this frame if its first detected-quad item has
`crossVerificationStatus` 1) reaches the configured threshold on a frame
with a detected boundary (at least two result items); the counter is
incremented only on verified frames, is reset to zero on frames with
exactly one result item and after each automatic capture, and frames with
no items at all are ignored and leave the counter unchanged. -/
theorem C1_auto_capture_amended :
    ∀ (smart autoCrop : Bool) (cfgMin : Option Nat) (count : Nat) (f : Frame),
    (smart || autoCrop) = true →
    ((handleBoundsDetection smart autoCrop cfgMin count f).2 = true ↔
      2 ≤ f.numItems ∧
      cfgMin.getD 2 ≤ (if f.verifiedQuad = true then count + 1 else count)) ∧
    (f.numItems = 1 →
      handleBoundsDetection smart autoCrop cfgMin count f = (0, false)) ∧
    (f.numItems = 0 →
      handleBoundsDetection smart autoCrop cfgMin count f = (count, false)) ∧
    (2 ≤ f.numItems → f.verifiedQuad = false →
      (handleBoundsDetection smart autoCrop cfgMin count f).2 = false →
      (handleBoundsDetection smart autoCrop cfgMin count f).1 = count) ∧
    (2 ≤ f.numItems → f.verifiedQuad = true →
      (handleBoundsDetection smart autoCrop cfgMin count f).2 = false →
      (handleBoundsDetection smart autoCrop cfgMin count f).1 = count + 1) ∧
    ((handleBoundsDetection smart autoCrop cfgMin count f).2 = true →
      (handleBoundsDetection smart autoCrop cfgMin count f).1 = 0) := by
  intro smart autoCrop cfgMin count f hmode
  obtain ⟨n, v⟩ := f
  simp only [handleBoundsDetection, handleAutoCaptureMode, hmode, if_true]
  by_cases h0 : n = 0
  · subst h0
    simp
  · by_cases h1 : n ≤ 1
    · have hn1 : n = 1 := by omega
      subst hn1
      simp
    · have h2 : 2 ≤ n := by omega
      simp only [h0, h1, if_false]
      cases v
      · simp only [Bool.false_eq_true, if_false]
        by_cases hcap : cfgMin.getD 2 ≤ count
        · rw [if_pos hcap]
          exact ⟨by simp [h2, hcap], fun h => absurd h (by omega),
            fun h => h.elim,
            fun _ _ hf => absurd hf (by simp),
            fun _ hv => absurd hv (by simp),
            fun _ => rfl⟩
        · rw [if_neg hcap]
          exact ⟨by simp [hcap], fun h => absurd h (by omega),
            fun h => h.elim,
            fun _ _ _ => rfl,
            fun _ hv => absurd hv (by simp),
            fun hf => absurd hf (by simp)⟩
      · simp only [if_true]
        by_cases hcap : cfgMin.getD 2 ≤ count + 1
        · rw [if_pos hcap]
          exact ⟨by simp [h2, hcap], fun h => absurd h (by omega),
            fun h => h.elim,
            fun _ hv => absurd hv (by simp),
            fun _ _ hf => absurd hf (by simp),
            fun _ => rfl⟩
        · rw [if_neg hcap]
          exact ⟨by simp [hcap], fun h => absurd h (by omega),
            fun h => h.elim,
            fun _ hv => absurd hv (by simp),
            fun _ _ _ => rfl,
            fun hf => absurd hf (by simp)⟩

/-- Witness for C1 (amended) in smart-capture mode with threshold 2,
counter 1, and a verified two-item frame: the capture fires and the
counter resets. -/
theorem C1_auto_capture_amended_witness :
    ((true || false) = true) ∧
    (((handleBoundsDetection true false (some 2) 1 ⟨2, true⟩).2 = true ↔
      2 ≤ (⟨2, true⟩ : Frame).numItems ∧
      (some 2).getD 2 ≤
        (if (⟨2, true⟩ : Frame).verifiedQuad = true then 1 + 1 else 1)) ∧
    ((⟨2, true⟩ : Frame).numItems = 1 →
      handleBoundsDetection true false (some 2) 1 ⟨2, true⟩ = (0, false)) ∧
    ((⟨2, true⟩ : Frame).numItems = 0 →
      handleBoundsDetection true false (some 2) 1 ⟨2, true⟩ = (1, false)) ∧
    (2 ≤ (⟨2, true⟩ : Frame).numItems → (⟨2, true⟩ : Frame).verifiedQuad = false →
      (handleBoundsDetection true false (some 2) 1 ⟨2, true⟩).2 = false →
      (handleBoundsDetection true false (some 2) 1 ⟨2, true⟩).1 = 1) ∧
    (2 ≤ (⟨2, true⟩ : Frame).numItems → (⟨2, true⟩ : Frame).verifiedQuad = true →
      (handleBoundsDetection true false (some 2) 1 ⟨2, true⟩).2 = false →
      (handleBoundsDetection true false (some 2) 1 ⟨2, true⟩).1 = 1 + 1) ∧
    ((handleBoundsDetection true false (some 2) 1 ⟨2, true⟩).2 = true →
      (handleBoundsDetection true false (some 2) 1 ⟨2, true⟩).1 = 0)) :=
  ⟨rfl, C1_auto_capture_amended true false (some 2) 1 ⟨2, true⟩ rfl⟩

/-- Claim C3: every view launch (scanner, correction, result) and the
top-level `DocumentScanner.launch` catch any error raised during their
flow and return a `DocumentResult` with status code `RS_FAILED` and a
message describing the error; the top-level launch (when not re-entered)
never propagates an exception to the caller. -/
theorem C3_errors_caught :
    ∀ (e : String) (body : Except String DocumentResult),
    (scannerViewLaunch (Except.error e)).status.code = .RS_FAILED ∧
    (scannerViewLaunch (Except.error e)).status.message = some "DDS Launch error" ∧
    (correctionViewLaunch true (Except.error e)).status.code = .RS_FAILED ∧
    (correctionViewLaunch true (Except.error e)).status.message = some e ∧
    (resultViewLaunch (Except.error e)).status.code = .RS_FAILED ∧
    (resultViewLaunch (Except.error e)).status.message = some e ∧
    documentScannerLaunch false (Except.error e) =
      Except.ok (failedResult ("Document capture flow failed. " ++ e)) ∧
    (∃ r, documentScannerLaunch false body = Except.ok r) := by
  intro e body
  refine ⟨rfl, rfl, rfl, rfl, rfl, rfl, rfl, ?_⟩
  cases body with
  | ok r => exact ⟨r, rfl⟩
  | error e => exact ⟨failedResult ("Document capture flow failed. " ++ e), rfl⟩

/-- Claim C5: when the user clicks Done and a shared result exists, the
pending promise of `DocumentResultView.launch` is fulfilled (through the
saved resolver) with the current shared result, after awaiting the
configured `onDone` callback when one is set. -/
theorem C5_done_fulfills_promise : ∀ r : DocumentResult,
    handleDone (some (Except.ok ())) true (some r) =
      [DoneEvent.calledOnDone r, DoneEvent.resolved r] ∧
    handleDone none true (some r) = [DoneEvent.resolved r] := by
  intro r
  exact ⟨rfl, rfl⟩

/-- Claim C7: after `DocumentScanner.dispose()` the shared result and the
`onResultUpdated` callback are cleared, the camera enhancer, camera view,
and capture-vision router are disposed (a `dispose()` call is recorded for
each one that was present) and their references cleared, and the scanner is
marked uninitialized. -/
theorem C7_dispose_teardown : ∀ s : DocumentScannerState,
    (dispose s).1.resources.result = none ∧
    (dispose s).1.resources.hasOnResultUpdated = false ∧
    (dispose s).1.resources.cameraEnhancer = none ∧
    (dispose s).1.resources.cameraView = none ∧
    (dispose s).1.resources.cvRouter = none ∧
    (dispose s).1.isInitialized = false ∧
    (∀ h, s.resources.cameraEnhancer = some h →
      DisposeCall.cameraEnhancer h ∈ (dispose s).2) ∧
    (∀ h, s.resources.cameraView = some h →
      DisposeCall.cameraView h ∈ (dispose s).2) ∧
    (∀ h, s.resources.cvRouter = some h →
      DisposeCall.cvRouter h ∈ (dispose s).2) := by
  intro s
  refine ⟨rfl, rfl, rfl, rfl, rfl, rfl, ?_, ?_, ?_⟩ <;>
    intro h hh <;> simp [dispose, hh]

/-- A concrete scanner state with all three DCV resources present, a
stored result, and the callback set, used as the C7 witness input. -/
def disposeWitnessState : DocumentScannerState :=
  { hasScannerView := true
    hasCorrectionView := true
    hasScanResultView := true
    resources :=
      { cvRouter := some 3
        cameraEnhancer := some 1
        cameraView := some 2
        result := some (failedResult "old")
        hasOnResultUpdated := true }
    isInitialized := true }

/-- Witness for C7 at a concrete state, discharging the presence
hypotheses with the concrete handles 1, 2 and 3. -/
theorem C7_dispose_teardown_witness :
    (dispose disposeWitnessState).1.resources.result = none ∧
    (dispose disposeWitnessState).1.resources.hasOnResultUpdated = false ∧
    (dispose disposeWitnessState).1.isInitialized = false ∧
    DisposeCall.cameraEnhancer 1 ∈ (dispose disposeWitnessState).2 ∧
    DisposeCall.cameraView 2 ∈ (dispose disposeWitnessState).2 ∧
    DisposeCall.cvRouter 3 ∈ (dispose disposeWitnessState).2 :=
  ⟨(C7_dispose_teardown disposeWitnessState).1,
   (C7_dispose_teardown disposeWitnessState).2.1,
   (C7_dispose_teardown disposeWitnessState).2.2.2.2.2.1,
   (C7_dispose_teardown disposeWitnessState).2.2.2.2.2.2.1 1 rfl,
   (C7_dispose_teardown disposeWitnessState).2.2.2.2.2.2.2.1 2 rfl,
   (C7_dispose_teardown disposeWitnessState).2.2.2.2.2.2.2.2 3 rfl⟩

/-- Every initial mode state satisfies the mode invariant. -/
theorem initialModeState_invariant :
    ∀ es ea : Option Bool, modeInvariant (initialModeState es ea) := by
  decide

/-- When `_showCorrectionView` is not `false`, each of the three toggles
preserves the mode invariant. -/
theorem applyToggle_preserves_invariant :
    ∀ cfg : ModeConfig, cfg.showCorrectionView ≠ some false →
    ∀ (op : ToggleOp) (s : ModeState),
      modeInvariant s → modeInvariant (applyToggle cfg op s) := by
  intro cfg hcfg
  rcases cfg with ⟨sc⟩
  rcases sc with _ | b
  · decide
  · cases b
    · exact absurd rfl hcfg
    · decide

/-- Claim C6 (counterexample): the claim's invariant "in every reachable
state, `autoCropEnabled` implies `smartCaptureEnabled`" fails when
`_showCorrectionView === false`: from the reachable initial state with
auto-crop mode enabled (all three flags on), `toggleBoundsDetection(false)`
turns smart capture off (and, because `_showCorrectionView === false`,
skips turning auto crop off) and then turns bounds detection off, leaving
`autoCropEnabled = true` with `smartCaptureEnabled = false`. -/
theorem C6_counterexample :
    ReachableMode ⟨some false⟩
      (applyToggle ⟨some false⟩ (ToggleOp.boundsDetection (some false))
        (initialModeState none (some true))) ∧
    initialModeState none (some true) =
      { boundsDetectionEnabled := true
        smartCaptureEnabled := true
        autoCropEnabled := true } ∧
    (applyToggle ⟨some false⟩ (ToggleOp.boundsDetection (some false))
      (initialModeState none (some true))).autoCropEnabled = true ∧
    (applyToggle ⟨some false⟩ (ToggleOp.boundsDetection (some false))
      (initialModeState none (some true))).smartCaptureEnabled = false :=
  ⟨ReachableMode.step _ (ReachableMode.init none (some true)),
   by decide, by decide, by decide⟩

/-- Claim C6 as amended: after `toggleAutoCrop` enables auto-crop mode,
both `boundsDetectionEnabled` and `smartCaptureEnabled` are true (for any
`_showCorrectionView`); and provided `_showCorrectionView` is not `false`,
every state reachable from an initial mode state via the three toggle
operations satisfies: `autoCropEnabled` implies `smartCaptureEnabled`, and
`smartCaptureEnabled` implies `boundsDetectionEnabled`. -/
theorem C6_toggle_invariant_amended :
    ∀ (cfg : ModeConfig) (m : Option Bool) (s : ModeState),
    ((toggleAutoCrop cfg m s).autoCropEnabled = true →
      (toggleAutoCrop cfg m s).boundsDetectionEnabled = true ∧
      (toggleAutoCrop cfg m s).smartCaptureEnabled = true) ∧
    (cfg.showCorrectionView ≠ some false →
      ReachableMode cfg s → modeInvariant s) := by
  intro cfg m s
  constructor
  · revert cfg m s
    decide
  · intro hcfg hreach
    induction hreach with
    | init es ea => exact initialModeState_invariant es ea
    | step op hr ih => exact applyToggle_preserves_invariant cfg hcfg op _ ih

/-- Witness for C6 (amended): enabling auto crop from the all-off initial
state turns all three flags on, and the invariant holds at a concrete
reachable state under a config with `_showCorrectionView` unset. -/
theorem C6_toggle_invariant_amended_witness :
    ((toggleAutoCrop ⟨none⟩ (some true) (initialModeState none none)).boundsDetectionEnabled = true ∧
      (toggleAutoCrop ⟨none⟩ (some true) (initialModeState none none)).smartCaptureEnabled = true) ∧
    modeInvariant (initialModeState none (some true)) :=
  ⟨(C6_toggle_invariant_amended ⟨none⟩ (some true) (initialModeState none none)).1
      (by decide),
   (C6_toggle_invariant_amended ⟨none⟩ (some true)
      (initialModeState none (some true))).2 (by decide)
      (ReachableMode.init none (some true))⟩

/-- Claim C10: `findClosestResolutionLevel` always returns one of the five
standard levels, and for an input whose width and height exactly equal one
of the standard resolutions it returns that resolution's level, whose
weighted difference score is zero while every other level scores
positive. -/
theorem C10_closest_resolution :
    ∀ (w h : Nat) (l lvl : ResolutionLevel),
    findClosestResolutionLevel w h ∈ resolutionLevels ∧
    findClosestResolutionLevel (STANDARD_RESOLUTIONS l).1 (STANDARD_RESOLUTIONS l).2 = l ∧
    resolutionScore (STANDARD_RESOLUTIONS l).1 (STANDARD_RESOLUTIONS l).2 l = 0 ∧
    (lvl ≠ l →
      0 < resolutionScore (STANDARD_RESOLUTIONS l).1 (STANDARD_RESOLUTIONS l).2 lvl) := by
  intro w h l lvl
  refine ⟨?_, ?_, ?_, ?_⟩
  · cases hx : findClosestResolutionLevel w h <;> simp [resolutionLevels]
  · cases l <;>
      norm_num [findClosestResolutionLevel, resolutionLevels, resolutionScore,
        STANDARD_RESOLUTIONS, List.foldl_cons, List.foldl_nil, abs_div]
  · cases l <;> norm_num [resolutionScore, STANDARD_RESOLUTIONS, abs_div]
  · cases l <;> cases lvl <;> intro hne <;>
      first
      | exact absurd rfl hne
      | norm_num [resolutionScore, STANDARD_RESOLUTIONS, abs_div]

/-- Witness for C10 at 1920×1080: the function returns `1080p`, its score
there is zero, and the 720p score at that input is positive. -/
theorem C10_closest_resolution_witness :
    findClosestResolutionLevel 1920 1080 ∈ resolutionLevels ∧
    findClosestResolutionLevel (STANDARD_RESOLUTIONS .r1080p).1
      (STANDARD_RESOLUTIONS .r1080p).2 = .r1080p ∧
    resolutionScore (STANDARD_RESOLUTIONS .r1080p).1
      (STANDARD_RESOLUTIONS .r1080p).2 .r1080p = 0 ∧
    0 < resolutionScore (STANDARD_RESOLUTIONS .r1080p).1
      (STANDARD_RESOLUTIONS .r1080p).2 .r720p :=
  ⟨(C10_closest_resolution 1920 1080 .r1080p .r720p).1,
   (C10_closest_resolution 1920 1080 .r1080p .r720p).2.1,
   (C10_closest_resolution 1920 1080 .r1080p .r720p).2.2.1,
   (C10_closest_resolution 1920 1080 .r1080p .r720p).2.2.2 (by decide)⟩

end DocScanner
